import Mathlib

/-!
Verification of the Tip-Monad repository (a custodial Telegram tip bot).
The repository contains two bot variants:
* `src/unnamed/part_000` — the Monad (EVM) variant: `/pay`, withdrawal,
  transfer-all, `/random` and `/gmonad` giveaways, a retry transfer
  executor (`sendTransactionWithRetry`) and a shared rate governor
  (`rateLimitedDelay`).
* `src/bot.js` — the Solana variant: `/tip` (one combined transaction for
  principal and fee), withdrawal, transfer-all, with a
  `checkTransactionStatus` fallback after confirmation failures.

Amounts are modelled as rationals, addresses and usernames as strings,
transaction references and nonces as naturals.  Chain and database
interactions are modelled by explicit oracles (environment records) and
every handler returns, besides its result and updated state, the ordered
list of chain/database events it performed.
-/

namespace TipMonad

/-- Substring test on character lists: does `s` contain `pat` as a
contiguous run?  Models JavaScript `String.prototype.includes`. -/
def containsSeq (pat : List Char) : List Char → Bool
  | [] => pat.isEmpty
  | c :: t => pat.isPrefixOf (c :: t) || containsSeq pat t

/-- `strContains s pat` models `s.includes(pat)`. -/
def strContains (s pat : String) : Bool :=
  containsSeq pat.data s.data

/-- Retry classifier of `sendTransactionWithRetry`
(src/unnamed/part_000 line 71):
`error.message.includes('nonce') || error.message.includes('priority') ||
 error.message.includes('rate') || error.message.includes('limit')`. -/
def isRetryableError (msg : String) : Bool :=
  strContains msg "nonce" || strContains msg "priority" ||
  strContains msg "rate" || strContains msg "limit"

/-- `FEE_PERCENTAGE = 0.10` (both variants). -/
def FEE_PERCENTAGE : ℚ := 10 / 100

/-- `NETWORK_FEE = 0.000005` (both variants). -/
def NETWORK_FEE : ℚ := 5 / 1000000

/-- `MIN_RPC_DELAY = 100` ms (src/unnamed/part_000 line 33). -/
def MIN_RPC_DELAY : ℕ := 100

/-- The Monad variant's protocol fee address (src/unnamed/part_000 line 27). -/
def FEES_WALLET : String := "0x0000000000000000000000000000000000000000"

/-- The Solana variant's protocol fee address (src/bot.js line 34). -/
def SOL_FEES_WALLET : String := "DB3NZgGPsANwp5RBBMEK2A9ehWeN41QCELRt8WYyL8d8"

/-- Outcome of one attempt of the retry loop's try block: the submission
together with `transaction.wait()` either confirms with a receipt or
throws an error whose message is inspected by the classifier. -/
inductive AttemptOutcome where
  | ok (receipt : ℕ)
  | err (msg : String)
deriving Repr, DecidableEq

/-- Result of `sendTransactionWithRetry`: a confirmed transaction, a thrown
error, or the JavaScript `undefined` fall-through when `maxRetries = 0`
(the `for` loop body never runs). -/
inductive RetryResult where
  | confirmed (receipt : ℕ)
  | thrown (msg : String)
  | noAttempts
deriving Repr, DecidableEq

/-- Chain / database events of the Monad (EVM) variant, in execution
order.  `submitTx` is the only chain-mutating event. -/
inductive Ev where
  | balanceQuery
  | nonceQuery (n : ℕ)
  | submitTx (dest : String) (value : ℚ) (nonce : ℕ)
  | submitDirect (dest : String) (value : ℚ)
  | txConfirmed (receipt : ℕ)
  | backoff (ms : ℕ)
  | gasEstimate
  | feeDataQuery
  | txWait
  | statusQuery (receipt : ℕ)
  | dbWrite (tbl : String)
deriving Repr, DecidableEq

/-- Is the event a transaction submission (a chain-mutating call)? -/
def Ev.isSubmit : Ev → Bool
  | .submitTx _ _ _ => true
  | .submitDirect _ _ => true
  | _ => false

/-- Is the event a transaction-status re-query? -/
def Ev.isStatusQuery : Ev → Bool
  | .statusQuery _ => true
  | _ => false

/-- The loop body of `sendTransactionWithRetry`
(src/unnamed/part_000 lines 57-81), structurally recursive on the number
of remaining attempts (`fuel = maxRetries - i`, so `fuel = 1` is the last
iteration, where the catch rethrows before classifying).  `attempt i`
gives the outcome of attempt `i`; `fresh i` is the value of
`provider.getTransactionCount(wallet.address, 'latest')` fetched after a
retryable failure of attempt `i`.  Lifecycle callbacks are omitted: their
errors are swallowed by `invokeCallback`, so they cannot affect control
flow, state, or chain traffic. -/
def retryGo (attempt : ℕ → AttemptOutcome) (fresh : ℕ → ℕ)
    (dest : String) (value : ℚ) : ℕ → ℕ → ℕ → RetryResult × List Ev
  | 0, _, _ => (.noAttempts, [])
  | 1, i, nonce =>
    match attempt i with
    | .ok r => (.confirmed r, [.submitTx dest value nonce, .txConfirmed r])
    | .err m => (.thrown m, [.submitTx dest value nonce])
  | (fuel + 2), i, nonce =>
    match attempt i with
    | .ok r => (.confirmed r, [.submitTx dest value nonce, .txConfirmed r])
    | .err m =>
      if isRetryableError m then
        let n2 := fresh i
        let rest := retryGo attempt fresh dest value (fuel + 1) (i + 1) n2
        (rest.1, .submitTx dest value nonce :: .backoff 2000 :: .nonceQuery n2 :: rest.2)
      else (.thrown m, [.submitTx dest value nonce])

/-- `sendTransactionWithRetry(wallet, tx, { maxRetries })`
(src/unnamed/part_000 lines 45-82) with `tx = { to: dest, value, nonce }`. -/
def sendTransactionWithRetry (attempt : ℕ → AttemptOutcome) (fresh : ℕ → ℕ)
    (maxRetries : ℕ) (dest : String) (value : ℚ) (nonce : ℕ) :
    RetryResult × List Ev :=
  retryGo attempt fresh dest value maxRetries 0 nonce

/-- `checkTransactionStatus(txHash, maxRetries = 3)`
(src/unnamed/part_000 lines 238-252, src/bot.js lines 189-203): polls the
chain up to `maxRetries` times and returns true as soon as one poll sees a
confirmed receipt.  `poll i` is the chain's answer to the `i`-th poll. -/
def checkTransactionStatus (poll : ℕ → Bool) (maxRetries : ℕ) : Bool :=
  (List.range maxRetries).any poll

/-- `getWalletBalance(address)` (src/unnamed/part_000 lines 172-182,
src/bot.js lines 129-138): the RPC balance call either returns a balance
or throws; the catch block returns 0. -/
def getWalletBalance (rpc : Except String ℚ) : ℚ :=
  match rpc with
  | .ok b => b
  | .error _ => 0

/-! ## Wallets, database rows, assoc-map helpers -/

/-- A funding wallet row (`user_wallets`). -/
structure FundingWallet where
  privateKey : String
  publicKey : String
deriving Repr, DecidableEq

/-- A claim wallet (in-memory object and `claim_wallets` row):
`{ privateKey, publicKey, fromUserId, amount }`; `amount` is the
ClaimAccrual. -/
structure ClaimWallet where
  privateKey : String
  publicKey : String
  fromUserId : String
  amount : ℚ
deriving Repr, DecidableEq

/-- A tip record row (`tips` table in both variants, and the `payments`
table the Monad `/pay` handler writes to). -/
structure TipRecord where
  fromUserId : String
  toUsername : String
  amount : ℚ
  feeAmount : ℚ
  txSignature : ℕ
deriving Repr, DecidableEq

/-- Lookup in an insertion-ordered string-keyed map (JS `Map.get`): first
entry with the key wins (keys are unique in all maps modelled here). -/
def lookupKey {α : Type} : List (String × α) → String → Option α
  | [], _ => none
  | p :: rest, k => if p.1 == k then some p.2 else lookupKey rest k

/-- Update-or-append in an insertion-ordered string-keyed map
(JS `Map.set`, and the `ON CONFLICT ... DO UPDATE` upsert of
`saveWallet`): replace the entry in place if the key is present, append
otherwise. -/
def upsertKey {α : Type} : List (String × α) → String → α → List (String × α)
  | [], k, v => [(k, v)]
  | p :: rest, k, v =>
    if p.1 == k then (k, v) :: rest else p :: upsertKey rest k v

/-- Remove a key (JS `Map.delete`). -/
def eraseKey {α : Type} (m : List (String × α)) (k : String) :
    List (String × α) :=
  m.filter (fun p => !(p.1 == k))

/-- The Monad variant's database.  `initializeDatabase`
(src/unnamed/part_000 lines 85-118) creates `user_wallets`,
`claim_wallets` and `tips` only: no `payments` table exists, which is
recorded by `hasPaymentsTable = false` in the initial state; an INSERT
into a missing relation throws. -/
structure MonadDb where
  claimRows : List (String × ClaimWallet)
  tips : List TipRecord
  payments : List TipRecord
  hasPaymentsTable : Bool
deriving Repr, DecidableEq

/-! ## The Monad `/pay` handler (src/unnamed/part_000 lines 741-912) -/

/-- Oracles for one `/pay` run: the balance read, the keypair
`ethers.Wallet.createRandom()` would produce, the two
`provider.getTransactionCount(addr, 'latest')` results, and the per-attempt
outcomes and nonce refreshes of the two retry executions. -/
structure PayEnv where
  balance : ℚ
  freshClaimKey : String × String
  nonce1 : ℕ
  principalAttempt : ℕ → AttemptOutcome
  principalFresh : ℕ → ℕ
  nonce2 : ℕ
  feeAttempt : ℕ → AttemptOutcome
  feeFresh : ℕ → ℕ

/-- Mutable state a `/pay` run touches: the in-memory `claimWallets` map
and the database. -/
structure PayState where
  claimWallets : List (String × ClaimWallet)
  db : MonadDb
deriving Repr, DecidableEq

/-- Result of a `/pay` run, as reported to the user. -/
inductive PayResult where
  | invalidAmount
  | noWallet
  | insufficientBalance (required balance : ℚ)
  | success (txHash : ℕ)
  | failed (msg : String)
deriving Repr, DecidableEq

/-- The resolve-or-create step for the recipient's claim wallet
(src/unnamed/part_000 lines 772-784): reuse the stored wallet, or create a
fresh one with zero accrual, put it in the map and persist it.  Returns
the wallet, the updated map and database, the number of persistence
writes, and the database events. -/
def payGetOrCreate (claimWallets : List (String × ClaimWallet)) (db : MonadDb)
    (recipient userId : String) (freshKey : String × String) :
    ClaimWallet × List (String × ClaimWallet) × MonadDb × ℕ × List Ev :=
  match lookupKey claimWallets recipient with
  | some w => (w, claimWallets, db, 0, [])
  | none =>
    let w : ClaimWallet := ⟨freshKey.1, freshKey.2, userId, 0⟩
    (w, upsertKey claimWallets recipient w,
     { db with claimRows := upsertKey db.claimRows recipient w }, 1,
     [.dbWrite "claim_wallets"])

/-- The `/pay` handler (src/unnamed/part_000 lines 741-912).  Steps:
amount validation; sender wallet lookup; balance precondition
`balance < amount + amount*FEE_PERCENTAGE + NETWORK_FEE`; claim-wallet
resolve-or-create; first nonce query; principal transfer through the retry
executor; second (fresh) nonce query; fee transfer through the retry
executor; accrual update and persistence; INSERT INTO `payments` (a table
`initializeDatabase` never creates, so with `hasPaymentsTable = false` the
insert throws).  Any throw lands in the catch block at lines 905-911,
which reports a failed payment; state mutated before the throw is not
rolled back.  Status-message editing callbacks are omitted: their errors
are swallowed inside `sendTransactionWithRetry` and `updateStatusMessage`
never throws past its own catch. -/
def payHandler (env : PayEnv) (userWallets : List (String × FundingWallet))
    (st : PayState) (userId recipient : String) (amount : ℚ) :
    PayResult × PayState × List Ev :=
  if amount ≤ 0 then (.invalidAmount, st, [])
  else
    match lookupKey userWallets userId with
    | none => (.noWallet, st, [])
    | some _ =>
      let fee := amount * FEE_PERCENTAGE
      let totalRequired := amount + fee + NETWORK_FEE
      if env.balance < totalRequired then
        (.insufficientBalance totalRequired env.balance, st, [.balanceQuery])
      else
        let gc := payGetOrCreate st.claimWallets st.db recipient userId env.freshClaimKey
        let rw := gc.1
        let cw1 := gc.2.1
        let db1 := gc.2.2.1
        let evs0 := Ev.balanceQuery :: gc.2.2.2.2 ++ [Ev.nonceQuery env.nonce1]
        match sendTransactionWithRetry env.principalAttempt env.principalFresh 3
            rw.publicKey amount env.nonce1 with
        | (.thrown m, evP) => (.failed m, ⟨cw1, db1⟩, evs0 ++ evP)
        | (.noAttempts, evP) => (.failed "no attempt", ⟨cw1, db1⟩, evs0 ++ evP)
        | (.confirmed r, evP) =>
          let evs1 := evs0 ++ evP ++ [Ev.nonceQuery env.nonce2]
          match sendTransactionWithRetry env.feeAttempt env.feeFresh 3
              FEES_WALLET fee env.nonce2 with
          | (.thrown m, evF) => (.failed m, ⟨cw1, db1⟩, evs1 ++ evF)
          | (.noAttempts, evF) => (.failed "no attempt", ⟨cw1, db1⟩, evs1 ++ evF)
          | (.confirmed _, evF) =>
            let rw2 := { rw with amount := rw.amount + amount }
            let cw2 := upsertKey cw1 recipient rw2
            let db2 := { db1 with claimRows := upsertKey db1.claimRows recipient rw2 }
            let evs2 := evs1 ++ evF ++ [Ev.dbWrite "claim_wallets"]
            if db2.hasPaymentsTable then
              (.success r,
               ⟨cw2, { db2 with payments := db2.payments ++ [⟨userId, recipient, amount, fee, r⟩] }⟩,
               evs2 ++ [Ev.dbWrite "payments"])
            else
              (.failed "relation payments does not exist", ⟨cw2, db2⟩, evs2)

/-! ## The Monad withdrawal flow (src/unnamed/part_000 lines 569-624,
claim-wallet branch; the funding-wallet branch at lines 625-677 is
identical in structure) -/

/-- Oracles for one Monad withdrawal: balance read, computed gas cost,
submission outcome, `transaction.wait()` outcome, and what a status
re-query would report (the code never performs one). -/
structure MonWdEnv where
  balance : ℚ
  gasCost : ℚ
  sendOutcome : Except String ℕ
  waitOutcome : Except String Unit
  chainConfirmed : Bool

/-- Result of a Monad withdrawal run. -/
inductive MonWdResult where
  | insufficientBalance (bal : ℚ)
  | insufficientGas (bal gas : ℚ)
  | success (tx : ℕ) (amt : ℚ)
  | failed (msg : String)
deriving Repr, DecidableEq

/-- The Monad claim-wallet withdrawal (src/unnamed/part_000 lines
569-624): refuse if `balance ≤ 0.0001`; estimate gas and fee data;
`amountToSend = balance - gasCost - 0.00001`, refuse if `≤ 0`; submit and
wait; on success zero the accrual and persist.  The catch block at lines
680-684 reports `Withdrawal failed` directly — `checkTransactionStatus`
is never called in this variant. -/
def monadWithdraw (env : MonWdEnv) (wallet : ClaimWallet) (dest : String) :
    MonWdResult × Option ClaimWallet × List Ev :=
  if env.balance ≤ 1 / 10000 then
    (.insufficientBalance env.balance, none, [.balanceQuery])
  else
    let amountToSend := env.balance - env.gasCost - 1 / 100000
    if amountToSend ≤ 0 then
      (.insufficientGas env.balance env.gasCost, none,
       [.balanceQuery, .gasEstimate, .feeDataQuery])
    else
      match env.sendOutcome with
      | .error m =>
        (.failed m, none, [.balanceQuery, .gasEstimate, .feeDataQuery])
      | .ok tx =>
        match env.waitOutcome with
        | .error m =>
          (.failed m, none,
           [.balanceQuery, .gasEstimate, .feeDataQuery,
            .submitDirect dest amountToSend, .txWait])
        | .ok _ =>
          (.success tx amountToSend, some { wallet with amount := 0 },
           [.balanceQuery, .gasEstimate, .feeDataQuery,
            .submitDirect dest amountToSend, .txWait, .txConfirmed tx,
            .dbWrite "claim_wallets"])

/-! ## The Solana variant (src/bot.js) -/

/-- Chain / database events of the Solana variant.  A `submitTx` carries
the list of transfers bundled into the single submitted transaction. -/
inductive SolEv where
  | balanceQuery
  | blockhashQuery
  | submitTx (transfers : List (String × ℚ))
  | confirmWait
  | statusQuery
  | dbWrite (tbl : String)
deriving Repr, DecidableEq

/-- Is the event a transaction submission? -/
def SolEv.isSubmit : SolEv → Bool
  | .submitTx _ => true
  | _ => false

/-- The Solana variant's database (`initializeDatabase`, src/bot.js lines
42-75, creates `user_wallets`, `claim_wallets`, `tips`). -/
structure SolDb where
  claimRows : List (String × ClaimWallet)
  tips : List TipRecord
deriving Repr, DecidableEq

/-- Outcome of `connection.confirmTransaction(signature)` raced against a
30-second timeout (src/bot.js lines 826-835): the race resolves cleanly,
resolves with `confirmation.value.err` set (which makes the handler throw
`Transaction failed to confirm` inside the same inner try), or rejects
(timeout or RPC error). -/
inductive ConfirmOutcome where
  | confirmedOk
  | confirmedErr
  | threw (msg : String)
deriving Repr, DecidableEq

/-- Oracles for one `/tip` run: balance read, the keypair
`Keypair.generate()` would produce, the `sendTransaction` outcome, the
confirmation-race outcome, and the chain's answers to the status polls of
`checkTransactionStatus`. -/
structure TipEnv where
  balance : ℚ
  freshKeypair : String × String
  sendOutcome : Except String ℕ
  confirmOutcome : ConfirmOutcome
  statusPoll : ℕ → Bool

/-- Result of a `/tip` run.  `crashedRefError` models the outer catch
block (src/bot.js lines 879-927): `signature` is declared with `const`
inside the `try` block (line 819), so the reference at line 883 is outside
its block scope and throws a `ReferenceError` before
`checkTransactionStatus` runs — the handler's promise rejects and no
failure message reaches the user. -/
inductive TipResult where
  | invalidAmount
  | noWallet
  | insufficientBalance (required balance : ℚ)
  | success (sig : ℕ)
  | crashedRefError
deriving Repr, DecidableEq

/-- The claim-wallet resolve-or-create of the `/tip` handler (src/bot.js
lines 758-773).  Unlike the Monad variant, the tip amount is accumulated
into the wallet here, before any chain interaction: an existing wallet
gets `amount` added to its accrual, a fresh wallet starts with accrual
`amount`. -/
def tipResolveClaim (claimWallets : List (String × ClaimWallet))
    (target userId : String) (amount : ℚ) (fresh : String × String) :
    ClaimWallet × List (String × ClaimWallet) :=
  match lookupKey claimWallets target with
  | some w =>
    let w2 := { w with amount := w.amount + amount }
    (w2, upsertKey claimWallets target w2)
  | none =>
    let w : ClaimWallet := ⟨fresh.1, fresh.2, userId, amount⟩
    (w, upsertKey claimWallets target w)

/-- The resolve-or-create step together with the unconditional
`saveWallet(targetUsername, targetWallet, true)` that follows it in every
`/tip` settlement (src/bot.js lines 758-787).  Returns the wallet, the
updated map and database, and the number of persistence writes. -/
def tipClaimResolveAndSave (claimWallets : List (String × ClaimWallet))
    (db : SolDb) (target userId : String) (amount : ℚ)
    (fresh : String × String) :
    ClaimWallet × List (String × ClaimWallet) × SolDb × ℕ :=
  let rc := tipResolveClaim claimWallets target userId amount fresh
  (rc.1, rc.2, { db with claimRows := upsertKey db.claimRows target rc.1 }, 1)

/-- The `/tip` handler (src/bot.js lines 720-928).  Steps: amount
validation; `feeAmount = amount * FEE_PERCENTAGE`,
`totalAmount = amount + feeAmount` (no network-fee buffer); sender wallet
lookup; balance precondition `balance < totalAmount`; claim-wallet
resolve-or-create with the accrual added up front; persistence of the
claim wallet; one combined transaction holding both the principal and the
fee transfer; blockhash fetch and single submission; confirmation race
with the inner catch at lines 836-842 re-querying
`checkTransactionStatus` and proceeding when it reports confirmed; tips
insert; success message.  Any throw reaches the outer catch, which
crashes on the out-of-scope `signature` (see `TipResult.crashedRefError`);
mutations made before the throw are not rolled back. -/
def tipHandler (env : TipEnv) (userWallets : List (String × FundingWallet))
    (claimWallets : List (String × ClaimWallet)) (db : SolDb)
    (fromUserId target : String) (amount : ℚ) :
    TipResult × List (String × ClaimWallet) × SolDb × List SolEv :=
  if amount ≤ 0 then (.invalidAmount, claimWallets, db, [])
  else
    let feeAmount := amount * FEE_PERCENTAGE
    let totalAmount := amount + feeAmount
    match lookupKey userWallets fromUserId with
    | none => (.noWallet, claimWallets, db, [])
    | some _ =>
      if env.balance < totalAmount then
        (.insufficientBalance totalAmount env.balance, claimWallets, db,
         [.balanceQuery])
      else
        let rs := tipClaimResolveAndSave claimWallets db target fromUserId
          amount env.freshKeypair
        let tw := rs.1
        let cw1 := rs.2.1
        let db1 := rs.2.2.1
        let transfers := [(tw.publicKey, amount), (SOL_FEES_WALLET, feeAmount)]
        let evs0 := [SolEv.balanceQuery, SolEv.dbWrite "claim_wallets",
                     SolEv.blockhashQuery]
        match env.sendOutcome with
        | .error _ => (.crashedRefError, cw1, db1, evs0)
        | .ok sig =>
          let evs1 := evs0 ++ [SolEv.submitTx transfers, SolEv.confirmWait]
          let db2 := { db1 with
            tips := db1.tips ++ [⟨fromUserId, target, amount, feeAmount, sig⟩] }
          match env.confirmOutcome with
          | .confirmedOk =>
            (.success sig, cw1, db2, evs1 ++ [SolEv.dbWrite "tips"])
          | .confirmedErr =>
            if checkTransactionStatus env.statusPoll 3 then
              (.success sig, cw1, db2,
               evs1 ++ [SolEv.statusQuery, SolEv.dbWrite "tips"])
            else (.crashedRefError, cw1, db1, evs1 ++ [SolEv.statusQuery])
          | .threw _ =>
            if checkTransactionStatus env.statusPoll 3 then
              (.success sig, cw1, db2,
               evs1 ++ [SolEv.statusQuery, SolEv.dbWrite "tips"])
            else (.crashedRefError, cw1, db1, evs1 ++ [SolEv.statusQuery])

/-- Oracles for the Solana transfer-all and withdrawal flows. -/
structure SolXferEnv where
  balance : ℚ
  sendOutcome : Except String ℕ
  confirmOutcome : ConfirmOutcome
  statusPoll : ℕ → Bool

/-- Result of the Solana transfer-all flow. -/
inductive SolXferResult where
  | noClaimWallet
  | noFundingWallet
  | noFunds
  | insufficientForFees (bal : ℚ)
  | success (sig : ℕ)
  | crashedRefError
deriving Repr, DecidableEq

/-- The Solana transfer-all flow (src/bot.js lines 345-491): wallet
lookups; refuse on `balance ≤ 0` and on `balance - NETWORK_FEE ≤ 0`; one
transfer of `balance - NETWORK_FEE`; the same confirmation race with
inner status re-query as `/tip`; the outer catch at lines 453-490 has the
same out-of-scope `signature` reference. -/
def solTransferAll (env : SolXferEnv) (claimW : Option ClaimWallet)
    (fundingW : Option FundingWallet) : SolXferResult × List SolEv :=
  match claimW with
  | none => (.noClaimWallet, [])
  | some _ =>
    match fundingW with
    | none => (.noFundingWallet, [])
    | some fw =>
      if env.balance ≤ 0 then (.noFunds, [.balanceQuery])
      else
        let maxT := env.balance - NETWORK_FEE
        if maxT ≤ 0 then (.insufficientForFees env.balance, [.balanceQuery])
        else
          match env.sendOutcome with
          | .error _ =>
            (.crashedRefError, [.balanceQuery, .blockhashQuery])
          | .ok sig =>
            let evs1 := [SolEv.balanceQuery, SolEv.blockhashQuery,
                         SolEv.submitTx [(fw.publicKey, maxT)], SolEv.confirmWait]
            match env.confirmOutcome with
            | .confirmedOk => (.success sig, evs1)
            | .confirmedErr =>
              if checkTransactionStatus env.statusPoll 3 then
                (.success sig, evs1 ++ [SolEv.statusQuery])
              else (.crashedRefError, evs1 ++ [SolEv.statusQuery])
            | .threw _ =>
              if checkTransactionStatus env.statusPoll 3 then
                (.success sig, evs1 ++ [SolEv.statusQuery])
              else (.crashedRefError, evs1 ++ [SolEv.statusQuery])

/-- Result of the Solana withdrawal flow (amount step). -/
inductive SolWdResult where
  | invalidAmount
  | insufficientBalance (bal : ℚ)
  | success (sig : ℕ)
  | crashedRefError
deriving Repr, DecidableEq

/-- The Solana withdrawal amount step (src/bot.js lines 1016-1138):
validate the amount; refuse if `balance < amount`; one transfer of
`amount` to the stored destination; the same confirmation race with inner
status re-query; the outer catch at lines 1103-1137 has the same
out-of-scope `signature` reference. -/
def solWithdraw (env : SolXferEnv) (dest : String) (amount : ℚ) :
    SolWdResult × List SolEv :=
  if amount ≤ 0 then (.invalidAmount, [])
  else if env.balance < amount then
    (.insufficientBalance env.balance, [.balanceQuery])
  else
    match env.sendOutcome with
    | .error _ => (.crashedRefError, [.balanceQuery, .blockhashQuery])
    | .ok sig =>
      let evs1 := [SolEv.balanceQuery, SolEv.blockhashQuery,
                   SolEv.submitTx [(dest, amount)], SolEv.confirmWait]
      match env.confirmOutcome with
      | .confirmedOk => (.success sig, evs1)
      | .confirmedErr =>
        if checkTransactionStatus env.statusPoll 3 then
          (.success sig, evs1 ++ [SolEv.statusQuery])
        else (.crashedRefError, evs1 ++ [SolEv.statusQuery])
      | .threw _ =>
        if checkTransactionStatus env.statusPoll 3 then
          (.success sig, evs1 ++ [SolEv.statusQuery])
        else (.crashedRefError, evs1 ++ [SolEv.statusQuery])

/-! ## The gmonad giveaway state machine (src/unnamed/part_000 lines
1228-1439) -/

/-- Giveaway duration: `setTimeout(..., 60000)` at line 1300. -/
def GIVEAWAY_DURATION_MS : ℕ := 60000

/-- Notice sent when a giveaway ends with no participants (lines 1298 and
1354 carry the same text). -/
def NO_PARTICIPANTS_MSG : String := "GM giveaway ended - no participants!"

/-- An active gmonad giveaway (lines 1280-1289): participants are an
insertion-ordered map keyed by user id. -/
structure Giveaway where
  chatId : ℤ
  senderId : String
  amount : ℚ
  fee : ℚ
  participants : List (ℕ × String)
deriving Repr, DecidableEq

/-- The `activeGmonadGiveaways` registry, keyed by the giveaway key
string `chatId_startTime`. -/
abbrev GmRegistry := List (String × Giveaway)

/-- Oracles for a giveaway closure: the random winner index
(`Math.floor(Math.random() * participants.length)`, always in range) and
the outcome of the winner's settlement (the try block at lines 1363-1436
performs the same claim-wallet resolve, principal transfer, fresh-nonce
fee transfer, accrual update and tips insert that `payHandler` models;
here only its outcome and its invocation are recorded). -/
structure GmCloseEnv where
  rand : ℕ
  settleOutcome : Except String ℕ

/-- `closeGmonadGiveaway(giveawayKey)` (lines 1347-1439).  Returns the
updated registry, the notices sent, and the list of settlement
invocations `(winnerUsername, amount)`.  A missing key returns at once
(line 1349); an empty participant list sends the no-participants notice
and deletes; otherwise one settlement is invoked for the random winner
and, success or failure, the giveaway is deleted (line 1438). -/
def closeGmonadGiveaway (env : GmCloseEnv) (reg : GmRegistry) (key : String) :
    GmRegistry × List String × List (String × ℚ) :=
  match lookupKey reg key with
  | none => (reg, [], [])
  | some g =>
    if g.participants.length = 0 then
      (eraseKey reg key, [NO_PARTICIPANTS_MSG], [])
    else
      let winner := g.participants.getD env.rand (0, "")
      let notice :=
        match env.settleOutcome with
        | .ok _ => ["GM Giveaway Winner!"]
        | .error _ => ["Failed to send prize"]
      (eraseKey reg key, notice, [(winner.2, g.amount)])

/-- The deadline timer callback (lines 1292-1300): if the giveaway still
exists and has participants, close it; if it exists with none, delete it
and send the no-participants notice; if it was already removed, do
nothing. -/
def gmonadTimerFire (env : GmCloseEnv) (reg : GmRegistry) (key : String) :
    GmRegistry × List String × List (String × ℚ) :=
  match lookupKey reg key with
  | some g =>
    if 0 < g.participants.length then closeGmonadGiveaway env reg key
    else (eraseKey reg key, [NO_PARTICIPANTS_MSG], [])
  | none => (reg, [], [])

/-- JavaScript whitespace trimmed by `String.prototype.trim` (the
characters occurring in chat text). -/
def isJsSpace (c : Char) : Bool :=
  c == ' ' || c == '\t' || c == '\n' || c == '\r'

/-- `text.toLowerCase().trim()` (line 1319). -/
def normalizeEntry (s : String) : String :=
  String.mk ((((s.data.map Char.toLower).dropWhile isJsSpace).reverse.dropWhile
    isJsSpace).reverse)

/-- The accepted entry triggers (line 1326). -/
def isEntryTrigger (t : String) : Bool :=
  t == "gmonad" || t == "gm" || t == "gm monad"

/-- The scan of the entry listener (lines 1328-1342): walk the registry in
insertion order; at the first giveaway of the originating chat, add the
user if absent (first entry wins) and stop. -/
def gmonadEntryScan (chatId : ℤ) (userId : ℕ) (username : String) :
    GmRegistry → GmRegistry
  | [] => []
  | (k, g) :: rest =>
    if g.chatId == chatId then
      if (g.participants.find? (fun p => p.1 == userId)).isSome then
        (k, g) :: rest
      else (k, { g with participants := g.participants ++ [(userId, username)] }) :: rest
    else (k, g) :: gmonadEntryScan chatId userId username rest

/-- The message listener for giveaway entries (lines 1317-1344): messages
without text or username are ignored, the text is lowercased and trimmed,
and only the trigger words scan the registry. -/
def gmonadEntry (reg : GmRegistry) (chatId : ℤ) (userId : ℕ)
    (username : Option String) (text : Option String) : GmRegistry :=
  match text, username with
  | some t, some u =>
    if isEntryTrigger (normalizeEntry t) then gmonadEntryScan chatId userId u reg
    else reg
  | _, _ => reg

/-! ## The shared rate governor (src/unnamed/part_000 lines 31-42)

`rateLimitedDelay` reads `lastRpcCall` and `Date.now()`, sleeps until the
100ms interval has passed if needed, and only then assigns
`lastRpcCall = Date.now()`.  The chain call follows immediately, so the
time at which a governed call proceeds — and the value written back — is
`rlProceedTime`.  The read at line 36-37 and the write at line 41 are
separated by the `await` of the sleep at line 39, so when the sleep is
taken the runtime can schedule another invocation between them. -/

/-- The time at which a governed call proceeds, given the stored
`lastRpcCall` value `last` read together with `Date.now() = now`.  This is
also the value written back to `lastRpcCall`. -/
def rlProceedTime (last now : ℕ) : ℕ :=
  if now - last < MIN_RPC_DELAY then last + MIN_RPC_DELAY else now

/-- Sequential (non-overlapping) invocations: each invocation reads the
`lastRpcCall` written by the previous one.  `starts` are the `Date.now()`
values at the successive reads; the result lists the times at which the
governed chain calls proceed. -/
def rlRun (last : ℕ) : List ℕ → List ℕ
  | [] => []
  | t :: ts => rlProceedTime last t :: rlRun (rlProceedTime last t) ts

/-- Two overlapping invocations that both read `lastRpcCall = last`
before either writes: legal exactly when both take the sleep branch
(both reads happen before either write, which the `await` at line 39
permits).  Returns the two chain-call times. -/
def rlInterleavedPair (last t1 t2 : ℕ) : ℕ × ℕ :=
  (rlProceedTime last t1, rlProceedTime last t2)

/-! ## Helper lemmas -/

theorem lookupKey_upsertKey_self {α : Type} (m : List (String × α))
    (k : String) (v : α) : lookupKey (upsertKey m k v) k = some v := by
  induction m with
  | nil => simp [lookupKey, upsertKey]
  | cons p rest ih =>
    by_cases h : p.1 = k
    · simp [lookupKey, upsertKey, h]
    · have hb : (p.1 == k) = false := beq_eq_false_iff_ne.mpr h
      simp [lookupKey, upsertKey, hb, ih]

/-- A successful retry run's trace ends with the confirmation event of the
returned receipt. -/
theorem retryGo_confirmed_trace (attempt : ℕ → AttemptOutcome)
    (fresh : ℕ → ℕ) (dest : String) (value : ℚ) :
    ∀ fuel i nonce r evs,
      retryGo attempt fresh dest value fuel i nonce = (.confirmed r, evs) →
      ∃ T, evs = T ++ [Ev.txConfirmed r] := by
  intro fuel
  induction fuel using Nat.strong_induction_on with
  | _ fuel ih =>
    intro i nonce r evs h
    rcases fuel with _ | _ | f
    · simp [retryGo] at h
    · rw [retryGo] at h
      cases ha : attempt i with
      | ok r2 =>
        rw [ha] at h
        simp only [Prod.mk.injEq] at h
        obtain ⟨h1, h2⟩ := h
        cases h1
        exact ⟨[Ev.submitTx dest value nonce], h2.symm⟩
      | err m => rw [ha] at h; simp at h
    · rw [retryGo] at h
      cases ha : attempt i with
      | ok r2 =>
        rw [ha] at h
        simp only [Prod.mk.injEq] at h
        obtain ⟨h1, h2⟩ := h
        cases h1
        exact ⟨[Ev.submitTx dest value nonce], h2.symm⟩
      | err m =>
        rw [ha] at h
        by_cases hr : isRetryableError m = true
        · rcases h2 : retryGo attempt fresh dest value (f + 1) (i + 1) (fresh i)
            with ⟨res2, evs2⟩
          simp only [hr, if_true, h2, Prod.mk.injEq] at h
          obtain ⟨hres, hevs⟩ := h
          obtain ⟨T, hT⟩ :=
            ih (f + 1) (by omega) (i + 1) (fresh i) r evs2 (by rw [h2, hres])
          refine ⟨Ev.submitTx dest value nonce :: Ev.backoff 2000 ::
            Ev.nonceQuery (fresh i) :: T, ?_⟩
          rw [← hevs, hT]
          simp
        · simp [hr] at h

/-- A retry run with at least one attempt left submits first: its trace
starts with the submission at the current nonce. -/
theorem retryGo_head (attempt : ℕ → AttemptOutcome) (fresh : ℕ → ℕ)
    (dest : String) (value : ℚ) (fuel i nonce : ℕ) (hf : 0 < fuel) :
    ∃ rest, (retryGo attempt fresh dest value fuel i nonce).2 =
      Ev.submitTx dest value nonce :: rest := by
  rcases fuel with _ | _ | f
  · omega
  · rw [retryGo]
    cases attempt i <;> simp
  · rw [retryGo]
    cases attempt i with
    | ok r => simp
    | err m =>
      by_cases hr : isRetryableError m = true
      · simp [hr]
      · simp [hr]

/-- Exhaustion: when every attempt before the last errors retryably and
the last attempt errors as well, the loop fails with the last error after
exactly `fuel` submissions. -/
theorem retryGo_exhaust (attempt : ℕ → AttemptOutcome) (fresh : ℕ → ℕ)
    (dest : String) (value : ℚ) :
    ∀ fuel i nonce mlast, 0 < fuel →
      (∀ j, j + 1 < fuel →
        ∃ m, attempt (i + j) = .err m ∧ isRetryableError m = true) →
      attempt (i + (fuel - 1)) = .err mlast →
      (retryGo attempt fresh dest value fuel i nonce).1 = .thrown mlast ∧
      ((retryGo attempt fresh dest value fuel i nonce).2.countP Ev.isSubmit) = fuel := by
  intro fuel
  induction fuel using Nat.strong_induction_on with
  | _ fuel ih =>
    intro i nonce mlast hpos hall hlast
    rcases fuel with _ | _ | f
    · omega
    · simp only [Nat.add_zero, Nat.sub_self] at hlast
      rw [retryGo, hlast]
      simp [List.countP_cons, Ev.isSubmit]
    · obtain ⟨m0, hm0, hr0⟩ := hall 0 (by omega)
      simp only [Nat.add_zero] at hm0
      rw [retryGo, hm0]
      simp only [hr0, if_true]
      rcases h2 : retryGo attempt fresh dest value (f + 1) (i + 1) (fresh i)
        with ⟨res2, evs2⟩
      have hall2 : ∀ j, j + 1 < f + 1 →
          ∃ m, attempt (i + 1 + j) = .err m ∧ isRetryableError m = true := by
        intro j hj
        obtain ⟨m, hm, hr⟩ := hall (j + 1) (by omega)
        exact ⟨m, by rw [show i + 1 + j = i + (j + 1) by omega]; exact hm, hr⟩
      have hlast2 : attempt (i + 1 + (f + 1 - 1)) = .err mlast := by
        rw [show i + 1 + (f + 1 - 1) = i + (f + 2 - 1) by omega]
        exact hlast
      obtain ⟨hres, hcnt⟩ := ih (f + 1) (by omega) (i + 1) (fresh i) mlast
        (by omega) hall2 hlast2
      rw [h2] at hres hcnt
      constructor
      · exact hres
      · simp [List.countP_cons, Ev.isSubmit, hcnt]

/-- A governed call never proceeds earlier than 100ms after the stored
last-call timestamp it read. -/
theorem rlProceedTime_ge (last now : ℕ) :
    last + MIN_RPC_DELAY ≤ rlProceedTime last now := by
  unfold rlProceedTime MIN_RPC_DELAY
  split <;> omega

/-! ## Claim C4 -/

/-- Claim C4 (confirmed): for `execute(wallet, destination, amount,
maxAttempts=3)` — modelled by `sendTransactionWithRetry`, whose error
classifier `isRetryableError` is the source's substring test for
nonce/priority/rate/limit errors —
(1) a first-attempt error the classifier rejects propagates immediately:
the run fails with that error after a single submission and no backoff;
(2) a first-attempt error the classifier accepts triggers exactly the
2000ms backoff, a nonce refresh from the chain's latest confirmed state,
and a resubmission with the refreshed nonce, and a success on the second
attempt yields that attempt's receipt;
(3) when every attempt up to `maxAttempts` fails (the earlier ones
retryably), the executor fails with the last error after exactly
`maxAttempts` submissions. -/
theorem sendTransactionWithRetry_retry_policy
    (attempt : ℕ → AttemptOutcome) (fresh : ℕ → ℕ) (dest : String)
    (value : ℚ) (nonce : ℕ) :
    (∀ m, attempt 0 = .err m → isRetryableError m = false →
      sendTransactionWithRetry attempt fresh 3 dest value nonce =
        (.thrown m, [Ev.submitTx dest value nonce])) ∧
    (∀ m r, attempt 0 = .err m → isRetryableError m = true →
      attempt 1 = .ok r →
      sendTransactionWithRetry attempt fresh 3 dest value nonce =
        (.confirmed r,
         [Ev.submitTx dest value nonce, Ev.backoff 2000,
          Ev.nonceQuery (fresh 0), Ev.submitTx dest value (fresh 0),
          Ev.txConfirmed r])) ∧
    (∀ maxAttempts mlast, 0 < maxAttempts →
      (∀ j, j + 1 < maxAttempts →
        ∃ m, attempt j = .err m ∧ isRetryableError m = true) →
      attempt (maxAttempts - 1) = .err mlast →
      (sendTransactionWithRetry attempt fresh maxAttempts dest value nonce).1 =
        .thrown mlast ∧
      ((sendTransactionWithRetry attempt fresh maxAttempts dest value
        nonce).2.countP Ev.isSubmit) = maxAttempts) := by
  refine ⟨?_, ?_, ?_⟩
  · intro m hm hr
    show retryGo attempt fresh dest value (1 + 2) 0 nonce = _
    rw [retryGo, hm]
    simp [hr]
  · intro m r hm hr hok
    show retryGo attempt fresh dest value (1 + 2) 0 nonce = _
    rw [retryGo, hm]
    simp only [hr, if_true]
    show (((retryGo attempt fresh dest value (0 + 2) (0 + 1) (fresh 0)).1, _) :
      RetryResult × List Ev) = _
    rw [retryGo]
    norm_num [hok]
  · intro maxAttempts mlast hpos hall hlast
    have h := retryGo_exhaust attempt fresh dest value maxAttempts 0 nonce
      mlast hpos (by simpa using hall) (by simpa using hlast)
    exact h

/-- Concrete instances of `sendTransactionWithRetry_retry_policy`:
a non-retryable error fails at once; a nonce error backs off, refreshes
and succeeds with the second receipt; three rate-limit errors exhaust the
attempts and fail with the last error after three submissions. -/
theorem sendTransactionWithRetry_retry_policy_witness :
    (sendTransactionWithRetry
        (fun i => if i = 0 then .err "boom" else .ok 7) (fun _ => 44)
        3 "0xdest" 1 5 =
      (.thrown "boom", [Ev.submitTx "0xdest" 1 5])) ∧
    (sendTransactionWithRetry
        (fun i => if i = 0 then .err "nonce too low" else .ok 7)
        (fun _ => 44) 3 "0xdest" 1 5 =
      (.confirmed 7,
       [Ev.submitTx "0xdest" 1 5, Ev.backoff 2000, Ev.nonceQuery 44,
        Ev.submitTx "0xdest" 1 44, Ev.txConfirmed 7])) ∧
    ((sendTransactionWithRetry (fun _ => .err "rate limited") (fun _ => 44)
        3 "0xdest" 1 5).1 = .thrown "rate limited" ∧
     ((sendTransactionWithRetry (fun _ => .err "rate limited") (fun _ => 44)
        3 "0xdest" 1 5).2.countP Ev.isSubmit) = 3) := by
  refine ⟨?_, ?_, ?_⟩
  · exact (sendTransactionWithRetry_retry_policy
      (fun i => if i = 0 then .err "boom" else .ok 7) (fun _ => 44)
      "0xdest" 1 5).1 "boom" rfl (by decide)
  · exact (sendTransactionWithRetry_retry_policy
      (fun i => if i = 0 then .err "nonce too low" else .ok 7) (fun _ => 44)
      "0xdest" 1 5).2.1 "nonce too low" 7 rfl (by decide) rfl
  · exact (sendTransactionWithRetry_retry_policy
      (fun _ => .err "rate limited") (fun _ => 44)
      "0xdest" 1 5).2.2 3 "rate limited" (by decide)
      (fun j _ => ⟨"rate limited", rfl, by decide⟩) rfl

/-! ## Claim C1 -/

/-- Claim C1 counterexample: the claim asserts that every settlement with
`a > 0` and `r = 0.10` requires `a + a*r + networkFeeBuffer` and is
refused whenever the balance is below that.  The `/tip` handler of
src/bot.js checks only `balance < amount + feeAmount`
(lines 731-756) — no network-fee buffer.  With `a = 1` and balance
`1.1 < 1 + 0.1 + 0.000005`, the claim demands refusal, yet the run is not
refused: it settles successfully and submits a transaction. -/
theorem tip_below_buffered_requirement_not_refused :
    ((11 : ℚ)/10) < 1 + 1 * FEE_PERCENTAGE + NETWORK_FEE ∧
    (tipHandler ⟨11/10, ("k", "A"), .ok 42, .confirmedOk, fun _ => false⟩
        [("7", ⟨"fk", "fp"⟩)] [] ⟨[], []⟩ "7" "bob" 1).1 =
      .success 42 ∧
    ((tipHandler ⟨11/10, ("k", "A"), .ok 42, .confirmedOk, fun _ => false⟩
        [("7", ⟨"fk", "fp"⟩)] [] ⟨[], []⟩ "7" "bob" 1).2.2.2.countP
      SolEv.isSubmit) = 1 := by
  refine ⟨by norm_num [FEE_PERCENTAGE, NETWORK_FEE], ?_, ?_⟩ <;>
    norm_num [tipHandler, tipClaimResolveAndSave, tipResolveClaim, lookupKey,
      upsertKey, FEE_PERCENTAGE, List.countP_cons, SolEv.isSubmit]

/-- Claim C1 amended: the `/pay` handler of src/unnamed/part_000 requires
`a + a*r + NETWORK_FEE` and, below that, refuses with an
insufficient-balance error after only the balance read, with zero
chain-mutating calls; the `/tip` handler of src/bot.js requires only
`a + a*r` (no network-fee buffer) and, below that, likewise refuses with
an insufficient-balance error, no state change and zero chain-mutating
calls.  (The balance read itself is the one chain interaction either
handler performs before refusing.) -/
theorem balance_precondition_refusal :
    (∀ (env : PayEnv) (uws : List (String × FundingWallet)) (st : PayState)
       (uid rcpt : String) (a : ℚ) (uw : FundingWallet), 0 < a →
       lookupKey uws uid = some uw →
       env.balance < a + a * FEE_PERCENTAGE + NETWORK_FEE →
       payHandler env uws st uid rcpt a =
         (.insufficientBalance (a + a * FEE_PERCENTAGE + NETWORK_FEE)
            env.balance, st, [Ev.balanceQuery])) ∧
    (∀ (env : TipEnv) (uws : List (String × FundingWallet))
       (cw : List (String × ClaimWallet)) (db : SolDb) (uid tgt : String)
       (a : ℚ) (uw : FundingWallet), 0 < a →
       lookupKey uws uid = some uw →
       env.balance < a + a * FEE_PERCENTAGE →
       tipHandler env uws cw db uid tgt a =
         (.insufficientBalance (a + a * FEE_PERCENTAGE) env.balance, cw, db,
          [SolEv.balanceQuery])) := by
  constructor
  · intro env uws st uid rcpt a uw ha hlu hbal
    have hna : ¬ a ≤ 0 := not_le.mpr ha
    simp [payHandler, hna, hlu, hbal]
  · intro env uws cw db uid tgt a uw ha hlu hbal
    have hna : ¬ a ≤ 0 := not_le.mpr ha
    simp [tipHandler, hna, hlu, hbal]

/-- Concrete instances of `balance_precondition_refusal`: with amount 1
and balance 1, both handlers refuse with their respective required
amounts and only the balance read in the trace. -/
theorem balance_precondition_refusal_witness :
    payHandler ⟨1, ("k", "A"), 0, (fun _ => .ok 0), (fun _ => 0), 0,
        (fun _ => .ok 0), (fun _ => 0)⟩ [("7", ⟨"fk", "fp"⟩)]
        ⟨[], ⟨[], [], [], false⟩⟩ "7" "bob" 1 =
      (.insufficientBalance (1 + 1 * FEE_PERCENTAGE + NETWORK_FEE) 1,
       ⟨[], ⟨[], [], [], false⟩⟩, [Ev.balanceQuery]) ∧
    tipHandler ⟨1, ("k", "A"), .ok 0, .confirmedOk, fun _ => false⟩
        [("7", ⟨"fk", "fp"⟩)] [] ⟨[], []⟩ "7" "bob" 1 =
      (.insufficientBalance (1 + 1 * FEE_PERCENTAGE) 1, [], ⟨[], []⟩,
       [SolEv.balanceQuery]) := by
  constructor
  · exact balance_precondition_refusal.1 _ _ _ "7" "bob" 1 ⟨"fk", "fp"⟩
      (by norm_num) (by simp [lookupKey])
      (by norm_num [FEE_PERCENTAGE, NETWORK_FEE])
  · exact balance_precondition_refusal.2 _ _ _ _ "7" "bob" 1 ⟨"fk", "fp"⟩
      (by norm_num) (by simp [lookupKey]) (by norm_num [FEE_PERCENTAGE])

/-! ## Claim C2 -/

/-- Claim C2 counterexample: the claim asserts that when the principal
transfer succeeds and the fee transfer fails, the orchestrator still
reports overall success for the principal's purpose while propagating the
fee failure distinctly.  In src/unnamed/part_000 a fee-transfer throw
lands in the `/pay` catch block (lines 905-911), which reports the whole
payment as failed.  Concretely: principal confirmed (receipt 101 in the
trace), fee transfer throws `boom`, and the run reports `failed boom` —
not success. -/
theorem pay_fee_failure_reports_overall_failure :
    (payHandler ⟨10, ("k", "A"), 5, (fun _ => .ok 101), (fun _ => 0), 6,
        (fun _ => .err "boom"), (fun _ => 0)⟩ [("7", ⟨"fk", "fp"⟩)]
        ⟨[("bob", ⟨"pk", "pb", "x", 2⟩)],
         ⟨[("bob", ⟨"pk", "pb", "x", 2⟩)], [], [], false⟩⟩ "7" "bob" 1).1 =
      .failed "boom" ∧
    Ev.txConfirmed 101 ∈
      (payHandler ⟨10, ("k", "A"), 5, (fun _ => .ok 101), (fun _ => 0), 6,
        (fun _ => .err "boom"), (fun _ => 0)⟩ [("7", ⟨"fk", "fp"⟩)]
        ⟨[("bob", ⟨"pk", "pb", "x", 2⟩)],
         ⟨[("bob", ⟨"pk", "pb", "x", 2⟩)], [], [], false⟩⟩ "7" "bob" 1).2.2 := by
  have hP : sendTransactionWithRetry (fun _ => AttemptOutcome.ok 101)
      (fun _ => 0) 3 "pb" 1 5 =
      (.confirmed 101, [Ev.submitTx "pb" 1 5, Ev.txConfirmed 101]) := by
    show retryGo _ _ _ _ (1 + 2) 0 5 = _
    rw [retryGo]
  have hF : sendTransactionWithRetry (fun _ => AttemptOutcome.err "boom")
      (fun _ => 0) 3 FEES_WALLET (1 / 10) 6 =
      (.thrown "boom", [Ev.submitTx FEES_WALLET (1 / 10) 6]) := by
    show retryGo _ _ _ _ (1 + 2) 0 6 = _
    rw [retryGo]
    simp [show isRetryableError "boom" = false from by decide]
  constructor <;>
    norm_num [payHandler, payGetOrCreate, lookupKey, FEE_PERCENTAGE,
      NETWORK_FEE, hP, hF]

/-- Claim C2 amended: when the principal transfer succeeds (confirmed
with receipt `r`) and the fee transfer fails with error `m`, the `/pay`
handler reports the settlement as failed with exactly the fee-transfer
error `m` — the failure is surfaced, not silently dropped, but the run is
not reported as a success for the principal's purpose — and it leaves the
state untouched: the recipient's accrual is not incremented and no tip
record is appended. -/
theorem payHandler_fee_failure_propagates
    (env : PayEnv) (uws : List (String × FundingWallet)) (st : PayState)
    (uid rcpt : String) (a : ℚ) (uw : FundingWallet) (w : ClaimWallet)
    (r : ℕ) (evP : List Ev) (m : String) (evF : List Ev)
    (ha : 0 < a) (hlu : lookupKey uws uid = some uw)
    (hbal : ¬ env.balance < a + a * FEE_PERCENTAGE + NETWORK_FEE)
    (hw : lookupKey st.claimWallets rcpt = some w)
    (hp : sendTransactionWithRetry env.principalAttempt env.principalFresh 3
        w.publicKey a env.nonce1 = (.confirmed r, evP))
    (hf : sendTransactionWithRetry env.feeAttempt env.feeFresh 3
        FEES_WALLET (a * FEE_PERCENTAGE) env.nonce2 = (.thrown m, evF)) :
    payHandler env uws st uid rcpt a =
      (.failed m, st,
       Ev.balanceQuery :: Ev.nonceQuery env.nonce1 ::
         (evP ++ Ev.nonceQuery env.nonce2 :: evF)) := by
  have hna : ¬ a ≤ 0 := not_le.mpr ha
  simp [payHandler, payGetOrCreate, hna, hlu, hbal, hw, hp, hf]

/-- Concrete instance of `payHandler_fee_failure_propagates`. -/
theorem payHandler_fee_failure_propagates_witness :
    payHandler ⟨10, ("k", "A"), 5, (fun _ => .ok 101), (fun _ => 0), 6,
        (fun _ => .err "fee boom"), (fun _ => 0)⟩ [("7", ⟨"fk", "fp"⟩)]
        ⟨[("bob", ⟨"pk", "pb", "x", 2⟩)],
         ⟨[("bob", ⟨"pk", "pb", "x", 2⟩)], [], [], false⟩⟩ "7" "bob" 1 =
      (.failed "fee boom",
       ⟨[("bob", ⟨"pk", "pb", "x", 2⟩)],
        ⟨[("bob", ⟨"pk", "pb", "x", 2⟩)], [], [], false⟩⟩,
       Ev.balanceQuery :: Ev.nonceQuery 5 ::
         ([Ev.submitTx "pb" 1 5, Ev.txConfirmed 101] ++
          Ev.nonceQuery 6 :: [Ev.submitTx FEES_WALLET (1 * FEE_PERCENTAGE) 6])) := by
  refine payHandler_fee_failure_propagates _ _ _ "7" "bob" 1 ⟨"fk", "fp"⟩
    ⟨"pk", "pb", "x", 2⟩ 101 _ "fee boom" _ (by norm_num)
    (by simp [lookupKey]) (by norm_num [FEE_PERCENTAGE, NETWORK_FEE])
    (by simp [lookupKey]) ?_ ?_
  · show retryGo _ _ _ _ (1 + 2) 0 5 = _
    rw [retryGo]
  · show retryGo _ _ _ _ (1 + 2) 0 6 = _
    rw [retryGo]
    simp [show isRetryableError "fee boom" = false from by decide]

/-! ## Claim C3 -/

/-- Claim C3 (code bug, demonstrated): the claim says a successful
settlement adds exactly the amount to the recipient's ClaimAccrual and
appends exactly one tip record, and a failed settlement changes neither.
Part 1: in src/bot.js the `/tip` handler adds the amount to the claim
wallet and persists it before submitting (lines 758-787); here the
submission throws, the settlement fails, yet bob's accrual went from 2 to
3 both in memory and in the database, with no rollback.
Part 2: in src/unnamed/part_000 the `/pay` handler inserts its tip record
into a `payments` table that its own `initializeDatabase` never creates
(line 887 vs lines 85-118), so even a settlement whose two transfers
succeed appends no tip record: the insert throws after the accrual was
updated and persisted, and the run is reported as failed. -/
theorem settlement_accrual_tiprecord_bug :
    ((tipHandler ⟨10, ("k", "A"), .error "boom", .confirmedOk, fun _ => false⟩
        [("7", ⟨"fk", "fp"⟩)] [("bob", ⟨"pk", "pb", "x", 2⟩)]
        ⟨[("bob", ⟨"pk", "pb", "x", 2⟩)], []⟩ "7" "bob" 1).1 =
      .crashedRefError ∧
     lookupKey (tipHandler ⟨10, ("k", "A"), .error "boom", .confirmedOk,
        fun _ => false⟩ [("7", ⟨"fk", "fp"⟩)]
        [("bob", ⟨"pk", "pb", "x", 2⟩)]
        ⟨[("bob", ⟨"pk", "pb", "x", 2⟩)], []⟩ "7" "bob" 1).2.1 "bob" =
      some ⟨"pk", "pb", "x", 3⟩ ∧
     (tipHandler ⟨10, ("k", "A"), .error "boom", .confirmedOk,
        fun _ => false⟩ [("7", ⟨"fk", "fp"⟩)]
        [("bob", ⟨"pk", "pb", "x", 2⟩)]
        ⟨[("bob", ⟨"pk", "pb", "x", 2⟩)], []⟩ "7" "bob" 1).2.2.1 =
      ⟨[("bob", ⟨"pk", "pb", "x", 3⟩)], []⟩) ∧
    ((payHandler ⟨10, ("k", "A"), 5, (fun _ => .ok 101), (fun _ => 0), 6,
        (fun _ => .ok 102), (fun _ => 0)⟩ [("7", ⟨"fk", "fp"⟩)]
        ⟨[("bob", ⟨"pk", "pb", "x", 2⟩)],
         ⟨[("bob", ⟨"pk", "pb", "x", 2⟩)], [], [], false⟩⟩ "7" "bob" 1).1 =
      .failed "relation payments does not exist" ∧
     (payHandler ⟨10, ("k", "A"), 5, (fun _ => .ok 101), (fun _ => 0), 6,
        (fun _ => .ok 102), (fun _ => 0)⟩ [("7", ⟨"fk", "fp"⟩)]
        ⟨[("bob", ⟨"pk", "pb", "x", 2⟩)],
         ⟨[("bob", ⟨"pk", "pb", "x", 2⟩)], [], [], false⟩⟩ "7" "bob" 1).2.1 =
      ⟨[("bob", ⟨"pk", "pb", "x", 3⟩)],
       ⟨[("bob", ⟨"pk", "pb", "x", 3⟩)], [], [], false⟩⟩) := by
  have hP : sendTransactionWithRetry (fun _ => AttemptOutcome.ok 101)
      (fun _ => 0) 3 "pb" 1 5 =
      (.confirmed 101, [Ev.submitTx "pb" 1 5, Ev.txConfirmed 101]) := by
    show retryGo _ _ _ _ (1 + 2) 0 5 = _
    rw [retryGo]
  have hF : sendTransactionWithRetry (fun _ => AttemptOutcome.ok 102)
      (fun _ => 0) 3 FEES_WALLET (1 / 10) 6 =
      (.confirmed 102, [Ev.submitTx FEES_WALLET (1 / 10) 6, Ev.txConfirmed 102]) := by
    show retryGo _ _ _ _ (1 + 2) 0 6 = _
    rw [retryGo]
  constructor
  · refine ⟨?_, ?_, ?_⟩ <;>
      norm_num [tipHandler, tipClaimResolveAndSave, tipResolveClaim,
        lookupKey, upsertKey, FEE_PERCENTAGE]
  · constructor <;>
      norm_num [payHandler, payGetOrCreate, lookupKey, upsertKey,
        FEE_PERCENTAGE, NETWORK_FEE, hP, hF]

/-! ## Claim C5 -/

/-- Claim C5 counterexample: the claim says every transfer flow re-queries
the transaction status by reference whenever submission succeeded but the
confirmation wait failed, and reports success when the re-query shows the
transaction confirmed.  The Monad withdrawal flow
(src/unnamed/part_000 lines 569-684) has no such re-query —
`checkTransactionStatus` is defined at lines 238-252 but never called in
that file.  Concretely: submission succeeds (receipt 9), the wait throws
`confirmation timeout`, the chain would report the transaction confirmed,
yet the flow reports failure with zero status queries in its trace. -/
theorem monadWithdraw_no_status_requery :
    (monadWithdraw ⟨1, 1/1000, .ok 9, .error "confirmation timeout", true⟩
        ⟨"pk", "pb", "x", 2⟩ "0xdest").1 = .failed "confirmation timeout" ∧
    ((monadWithdraw ⟨1, 1/1000, .ok 9, .error "confirmation timeout", true⟩
        ⟨"pk", "pb", "x", 2⟩ "0xdest").2.2.countP Ev.isStatusQuery) = 0 ∧
    (⟨1, 1/1000, .ok 9, .error "confirmation timeout", true⟩ :
      MonWdEnv).chainConfirmed = true := by
  refine ⟨?_, ?_, rfl⟩ <;>
    norm_num [monadWithdraw, List.countP_cons, Ev.isStatusQuery]

/-- Claim C5 amended: in the Solana variant's three transfer flows (tip,
transfer-all, withdrawal), when submission succeeded and the
confirmation wait threw, the flow independently re-queries the
transaction status (`checkTransactionStatus`) and reports success when
the re-query shows the transaction confirmed, with a status query in its
trace.  The Monad variant's flows perform no such re-query (see the
counterexample). -/
theorem confirmation_fallback_requery :
    (∀ (env : TipEnv) (uws : List (String × FundingWallet))
       (cw : List (String × ClaimWallet)) (db : SolDb) (uid tgt : String)
       (a : ℚ) (uw : FundingWallet) (sig : ℕ) (msg : String), 0 < a →
       lookupKey uws uid = some uw →
       ¬ env.balance < a + a * FEE_PERCENTAGE →
       env.sendOutcome = .ok sig → env.confirmOutcome = .threw msg →
       checkTransactionStatus env.statusPoll 3 = true →
       (tipHandler env uws cw db uid tgt a).1 = .success sig ∧
       SolEv.statusQuery ∈ (tipHandler env uws cw db uid tgt a).2.2.2) ∧
    (∀ (env : SolXferEnv) (cwW : ClaimWallet) (fw : FundingWallet)
       (sig : ℕ) (msg : String),
       ¬ env.balance ≤ 0 → ¬ env.balance - NETWORK_FEE ≤ 0 →
       env.sendOutcome = .ok sig → env.confirmOutcome = .threw msg →
       checkTransactionStatus env.statusPoll 3 = true →
       (solTransferAll env (some cwW) (some fw)).1 = .success sig ∧
       SolEv.statusQuery ∈ (solTransferAll env (some cwW) (some fw)).2) ∧
    (∀ (env : SolXferEnv) (dest : String) (a : ℚ) (sig : ℕ) (msg : String),
       0 < a → ¬ env.balance < a →
       env.sendOutcome = .ok sig → env.confirmOutcome = .threw msg →
       checkTransactionStatus env.statusPoll 3 = true →
       (solWithdraw env dest a).1 = .success sig ∧
       SolEv.statusQuery ∈ (solWithdraw env dest a).2) := by
  refine ⟨?_, ?_, ?_⟩
  · intro env uws cw db uid tgt a uw sig msg ha hlu hbal hsend hconf hstat
    have hna : ¬ a ≤ 0 := not_le.mpr ha
    simp [tipHandler, hna, hlu, hbal, hsend, hconf, hstat]
  · intro env cwW fw sig msg h0 hfee hsend hconf hstat
    simp [solTransferAll, h0, hfee, hsend, hconf, hstat]
  · intro env dest a sig msg ha hbal hsend hconf hstat
    have hna : ¬ a ≤ 0 := not_le.mpr ha
    simp [solWithdraw, hna, hbal, hsend, hconf, hstat]

/-- Concrete instances of `confirmation_fallback_requery`: in all three
Solana flows, a timed-out confirmation wait followed by a positive status
re-query yields a reported success with a status query in the trace. -/
theorem confirmation_fallback_requery_witness :
    ((tipHandler ⟨10, ("k", "A"), .ok 42, .threw "timeout", fun _ => true⟩
        [("7", ⟨"fk", "fp"⟩)] [] ⟨[], []⟩ "7" "bob" 1).1 = .success 42 ∧
     SolEv.statusQuery ∈
       (tipHandler ⟨10, ("k", "A"), .ok 42, .threw "timeout", fun _ => true⟩
         [("7", ⟨"fk", "fp"⟩)] [] ⟨[], []⟩ "7" "bob" 1).2.2.2) ∧
    ((solTransferAll ⟨1, .ok 43, .threw "timeout", fun _ => true⟩
        (some ⟨"pk", "pb", "x", 2⟩) (some ⟨"fk", "fp"⟩)).1 = .success 43 ∧
     SolEv.statusQuery ∈
       (solTransferAll ⟨1, .ok 43, .threw "timeout", fun _ => true⟩
         (some ⟨"pk", "pb", "x", 2⟩) (some ⟨"fk", "fp"⟩)).2) ∧
    ((solWithdraw ⟨1, .ok 44, .threw "timeout", fun _ => true⟩
        "dest" (1/2)).1 = .success 44 ∧
     SolEv.statusQuery ∈
       (solWithdraw ⟨1, .ok 44, .threw "timeout", fun _ => true⟩
         "dest" (1/2)).2) := by
  refine ⟨?_, ?_, ?_⟩
  · exact confirmation_fallback_requery.1 _ _ _ _ "7" "bob" 1 ⟨"fk", "fp"⟩
      42 "timeout" (by norm_num) (by simp [lookupKey])
      (by norm_num [FEE_PERCENTAGE]) rfl rfl (by decide)
  · exact confirmation_fallback_requery.2.1 _ ⟨"pk", "pb", "x", 2⟩
      ⟨"fk", "fp"⟩ 43 "timeout" (by norm_num)
      (by norm_num [NETWORK_FEE]) rfl rfl (by decide)
  · exact confirmation_fallback_requery.2.2 _ "dest" (1/2) 44 "timeout"
      (by norm_num) (by norm_num) rfl rfl (by decide)

/-! ## Claim C6 -/

theorem sendRetry_confirmed_trace (attempt : ℕ → AttemptOutcome)
    (fresh : ℕ → ℕ) (dest : String) (value : ℚ) (max nonce r : ℕ)
    (evs : List Ev)
    (h : sendTransactionWithRetry attempt fresh max dest value nonce =
      (.confirmed r, evs)) :
    ∃ T, evs = T ++ [Ev.txConfirmed r] :=
  retryGo_confirmed_trace attempt fresh dest value max 0 nonce r evs h

theorem sendRetry_head (attempt : ℕ → AttemptOutcome) (fresh : ℕ → ℕ)
    (dest : String) (value : ℚ) (max nonce : ℕ) (hmax : 0 < max) :
    ∃ rest, (sendTransactionWithRetry attempt fresh max dest value nonce).2 =
      Ev.submitTx dest value nonce :: rest :=
  retryGo_head attempt fresh dest value max 0 nonce hmax

/-- Claim C6 counterexample: the claim says that in every settlement the
principal and the fee are two strictly sequential transfers and the fee
transfer uses a freshly re-queried nonce.  In the src/bot.js `/tip`
settlement (lines 792-822) both transfers are placed into one transaction
submitted once: the trace of this concrete successful settlement contains
exactly one submission, carrying both the principal transfer and the fee
transfer — there is no second, separately nonce-resolved fee transfer at
all (the Solana flow performs no nonce queries; `SolEv` has no such
event). -/
theorem tip_single_combined_transaction :
    ((tipHandler ⟨10, ("k", "A"), .ok 42, .confirmedOk, fun _ => false⟩
        [("7", ⟨"fk", "fp"⟩)] [("bob", ⟨"pk", "pb", "x", 0⟩)]
        ⟨[("bob", ⟨"pk", "pb", "x", 0⟩)], []⟩ "7" "bob" 1).2.2.2.filter
      SolEv.isSubmit) =
      [SolEv.submitTx [("pb", 1), (SOL_FEES_WALLET, 1/10)]] := by
  norm_num [tipHandler, tipClaimResolveAndSave, tipResolveClaim, lookupKey,
    upsertKey, FEE_PERCENTAGE, List.filter, SolEv.isSubmit]

/-- Claim C6 amended: in the Monad `/pay` settlement
(src/unnamed/part_000 lines 846-879) the property holds: whenever the
principal transfer confirms, the trace continues — immediately after the
principal's confirmation event — with the second nonce query and then the
fee transfer's first submission carrying exactly that freshly queried
nonce; so the principal is fully confirmed before the fee nonce is
fetched, and the fee transfer uses the re-queried nonce rather than the
principal's.  In the Solana `/tip` settlement the two transfers are
instead combined into one transaction submitted once (see the
counterexample). -/
theorem payHandler_sequential_fee_nonce
    (env : PayEnv) (uws : List (String × FundingWallet)) (st : PayState)
    (uid rcpt : String) (a : ℚ) (uw : FundingWallet) (w : ClaimWallet)
    (r : ℕ) (evP : List Ev)
    (ha : 0 < a) (hlu : lookupKey uws uid = some uw)
    (hbal : ¬ env.balance < a + a * FEE_PERCENTAGE + NETWORK_FEE)
    (hw : lookupKey st.claimWallets rcpt = some w)
    (hp : sendTransactionWithRetry env.principalAttempt env.principalFresh 3
        w.publicKey a env.nonce1 = (.confirmed r, evP)) :
    ∃ A B, (payHandler env uws st uid rcpt a).2.2 =
      A ++ Ev.txConfirmed r :: Ev.nonceQuery env.nonce2 ::
        Ev.submitTx FEES_WALLET (a * FEE_PERCENTAGE) env.nonce2 :: B := by
  have hna : ¬ a ≤ 0 := not_le.mpr ha
  obtain ⟨T, hT⟩ := sendRetry_confirmed_trace env.principalAttempt
    env.principalFresh w.publicKey a 3 env.nonce1 r evP hp
  subst hT
  rcases hfee : sendTransactionWithRetry env.feeAttempt env.feeFresh 3
    FEES_WALLET (a * FEE_PERCENTAGE) env.nonce2 with ⟨resF, evF⟩
  obtain ⟨restF, hrF⟩ := sendRetry_head env.feeAttempt env.feeFresh
    FEES_WALLET (a * FEE_PERCENTAGE) 3 env.nonce2 (by norm_num)
  rw [hfee] at hrF
  simp only at hrF
  subst hrF
  cases resF with
  | confirmed rf =>
    by_cases hpt : st.db.hasPaymentsTable
    · refine ⟨Ev.balanceQuery :: Ev.nonceQuery env.nonce1 :: T,
        restF ++ [Ev.dbWrite "claim_wallets", Ev.dbWrite "payments"], ?_⟩
      simp [payHandler, payGetOrCreate, hna, hlu, hbal, hw, hp, hfee, hpt]
    · refine ⟨Ev.balanceQuery :: Ev.nonceQuery env.nonce1 :: T,
        restF ++ [Ev.dbWrite "claim_wallets"], ?_⟩
      simp [payHandler, payGetOrCreate, hna, hlu, hbal, hw, hp, hfee, hpt]
  | thrown m =>
    refine ⟨Ev.balanceQuery :: Ev.nonceQuery env.nonce1 :: T, restF, ?_⟩
    simp [payHandler, payGetOrCreate, hna, hlu, hbal, hw, hp, hfee]
  | noAttempts =>
    refine ⟨Ev.balanceQuery :: Ev.nonceQuery env.nonce1 :: T, restF, ?_⟩
    simp [payHandler, payGetOrCreate, hna, hlu, hbal, hw, hp, hfee]

/-- Concrete instance of `payHandler_sequential_fee_nonce`. -/
theorem payHandler_sequential_fee_nonce_witness :
    ∃ A B, (payHandler ⟨10, ("k", "A"), 5, (fun _ => .ok 101), (fun _ => 0),
        6, (fun _ => .ok 102), (fun _ => 0)⟩ [("7", ⟨"fk", "fp"⟩)]
        ⟨[("bob", ⟨"pk", "pb", "x", 2⟩)],
         ⟨[("bob", ⟨"pk", "pb", "x", 2⟩)], [], [], false⟩⟩
        "7" "bob" 1).2.2 =
      A ++ Ev.txConfirmed 101 :: Ev.nonceQuery 6 ::
        Ev.submitTx FEES_WALLET (1 * FEE_PERCENTAGE) 6 :: B := by
  refine payHandler_sequential_fee_nonce _ _ _ "7" "bob" 1 ⟨"fk", "fp"⟩
    ⟨"pk", "pb", "x", 2⟩ 101 [Ev.submitTx "pb" 1 5, Ev.txConfirmed 101]
    (by norm_num) (by simp [lookupKey])
    (by norm_num [FEE_PERCENTAGE, NETWORK_FEE]) (by simp [lookupKey]) ?_
  show retryGo _ _ _ _ (1 + 2) 0 5 = _
  rw [retryGo]

/-! ## Claim C7 -/

/-- Claim C7 counterexample: the claim says resolving a claim wallet
twice for the same key returns the same address and performs exactly one
persistence write in total.  The src/bot.js `/tip` handler's
resolve-or-create-and-save (lines 758-787) persists the wallet on every
settlement: starting from an empty store, two successive invocations for
`bob` return the same address both times but perform two persistence
writes, not one. -/
theorem tipClaimResolveAndSave_two_writes :
    (tipClaimResolveAndSave
        (tipClaimResolveAndSave [] ⟨[], []⟩ "bob" "7" 1 ("k", "A")).2.1
        (tipClaimResolveAndSave [] ⟨[], []⟩ "bob" "7" 1 ("k", "A")).2.2.1
        "bob" "7" 1 ("k2", "A2")).1.publicKey =
      (tipClaimResolveAndSave [] ⟨[], []⟩ "bob" "7" 1 ("k", "A")).1.publicKey ∧
    ((tipClaimResolveAndSave [] ⟨[], []⟩ "bob" "7" 1 ("k", "A")).2.2.2 +
     (tipClaimResolveAndSave
        (tipClaimResolveAndSave [] ⟨[], []⟩ "bob" "7" 1 ("k", "A")).2.1
        (tipClaimResolveAndSave [] ⟨[], []⟩ "bob" "7" 1 ("k", "A")).2.2.1
        "bob" "7" 1 ("k2", "A2")).2.2.2) = 2 ∧
    ¬ ((tipClaimResolveAndSave [] ⟨[], []⟩ "bob" "7" 1 ("k", "A")).2.2.2 +
       (tipClaimResolveAndSave
          (tipClaimResolveAndSave [] ⟨[], []⟩ "bob" "7" 1 ("k", "A")).2.1
          (tipClaimResolveAndSave [] ⟨[], []⟩ "bob" "7" 1 ("k", "A")).2.2.1
          "bob" "7" 1 ("k2", "A2")).2.2.2) = 1 := by
  refine ⟨?_, ?_, ?_⟩ <;>
    simp [tipClaimResolveAndSave, tipResolveClaim, lookupKey, upsertKey]

/-- Claim C7 amended: in the Monad `/pay` handler's resolve-or-create
(src/unnamed/part_000 lines 772-784), starting from a state without a
wallet for the key, calling it twice returns the very same wallet (hence
the same address) both times and performs exactly one persistence write
in total (the creation); the second call leaves the map and database
untouched.  In the `/tip` handler's resolve-and-save, each settlement
re-persists the wallet, so two calls perform two writes (see the
counterexample), though both return the same address. -/
theorem payGetOrCreate_idempotent (cw : List (String × ClaimWallet))
    (db : MonadDb) (rcpt uid : String) (fk fk2 : String × String)
    (h0 : lookupKey cw rcpt = none) :
    (payGetOrCreate (payGetOrCreate cw db rcpt uid fk).2.1
        (payGetOrCreate cw db rcpt uid fk).2.2.1 rcpt uid fk2).1 =
      (payGetOrCreate cw db rcpt uid fk).1 ∧
    ((payGetOrCreate cw db rcpt uid fk).2.2.2.1 +
     (payGetOrCreate (payGetOrCreate cw db rcpt uid fk).2.1
        (payGetOrCreate cw db rcpt uid fk).2.2.1 rcpt uid fk2).2.2.2.1) = 1 ∧
    (payGetOrCreate (payGetOrCreate cw db rcpt uid fk).2.1
        (payGetOrCreate cw db rcpt uid fk).2.2.1 rcpt uid fk2).2.1 =
      (payGetOrCreate cw db rcpt uid fk).2.1 ∧
    (payGetOrCreate (payGetOrCreate cw db rcpt uid fk).2.1
        (payGetOrCreate cw db rcpt uid fk).2.2.1 rcpt uid fk2).2.2.1 =
      (payGetOrCreate cw db rcpt uid fk).2.2.1 := by
  refine ⟨?_, ?_, ?_, ?_⟩ <;>
    simp [payGetOrCreate, h0, lookupKey_upsertKey_self]

/-- Concrete instance of `payGetOrCreate_idempotent`. -/
theorem payGetOrCreate_idempotent_witness :
    (payGetOrCreate (payGetOrCreate [] ⟨[], [], [], false⟩ "bob" "7"
        ("k", "A")).2.1
        (payGetOrCreate [] ⟨[], [], [], false⟩ "bob" "7" ("k", "A")).2.2.1
        "bob" "7" ("k2", "A2")).1 =
      (payGetOrCreate [] ⟨[], [], [], false⟩ "bob" "7" ("k", "A")).1 ∧
    ((payGetOrCreate [] ⟨[], [], [], false⟩ "bob" "7" ("k", "A")).2.2.2.1 +
     (payGetOrCreate (payGetOrCreate [] ⟨[], [], [], false⟩ "bob" "7"
        ("k", "A")).2.1
        (payGetOrCreate [] ⟨[], [], [], false⟩ "bob" "7" ("k", "A")).2.2.1
        "bob" "7" ("k2", "A2")).2.2.2.1) = 1 ∧
    (payGetOrCreate (payGetOrCreate [] ⟨[], [], [], false⟩ "bob" "7"
        ("k", "A")).2.1
        (payGetOrCreate [] ⟨[], [], [], false⟩ "bob" "7" ("k", "A")).2.2.1
        "bob" "7" ("k2", "A2")).2.1 =
      (payGetOrCreate [] ⟨[], [], [], false⟩ "bob" "7" ("k", "A")).2.1 ∧
    (payGetOrCreate (payGetOrCreate [] ⟨[], [], [], false⟩ "bob" "7"
        ("k", "A")).2.1
        (payGetOrCreate [] ⟨[], [], [], false⟩ "bob" "7" ("k", "A")).2.2.1
        "bob" "7" ("k2", "A2")).2.2.1 =
      (payGetOrCreate [] ⟨[], [], [], false⟩ "bob" "7" ("k", "A")).2.2.1 :=
  payGetOrCreate_idempotent [] ⟨[], [], [], false⟩ "bob" "7" ("k", "A")
    ("k2", "A2") (by simp [lookupKey])

/-! ## Claim C8 -/

theorem gmonadEntryScan_no_match (chatId : ℤ) (userId : ℕ)
    (username : String) :
    ∀ reg : GmRegistry, (∀ p ∈ reg, (p : String × Giveaway).2.chatId ≠ chatId) →
      gmonadEntryScan chatId userId username reg = reg := by
  intro reg
  induction reg with
  | nil => intro _; rfl
  | cons p rest ih =>
    intro h
    have hp : p.2.chatId ≠ chatId := h p (List.mem_cons_self p rest)
    have hb : (p.2.chatId == chatId) = false := beq_eq_false_iff_ne.mpr hp
    cases p with
    | mk k g =>
      simp only [gmonadEntryScan, hb, Bool.false_eq_true, if_false]
      rw [ih (fun q hq => h q (List.mem_cons_of_mem _ hq))]

/-- Claim C8 (confirmed): (1) when the 60-second deadline timer fires on a
giveaway whose participant set is empty, the giveaway is removed from the
registry, the no-participants notice is the only message, and zero
settlement calls are performed; (2) a close on a key no longer in the
registry is a no-op (the double-closure guard); (3) once no giveaway of a
chat is open — in particular after a giveaway was closed and removed — an
entry-trigger event for that chat leaves the registry unchanged (and the
listener is a total function: no error). -/
theorem gmonad_empty_deadline_and_late_entries :
    (∀ (env : GmCloseEnv) (reg : GmRegistry) (key : String) (g : Giveaway),
       lookupKey reg key = some g → g.participants = [] →
       gmonadTimerFire env reg key =
         (eraseKey reg key, [NO_PARTICIPANTS_MSG], [])) ∧
    (∀ (env : GmCloseEnv) (reg : GmRegistry) (key : String),
       lookupKey reg key = none →
       closeGmonadGiveaway env reg key = (reg, [], [])) ∧
    (∀ (reg : GmRegistry) (chatId : ℤ) (userId : ℕ)
       (username text : Option String),
       (∀ p ∈ reg, (p : String × Giveaway).2.chatId ≠ chatId) →
       gmonadEntry reg chatId userId username text = reg) := by
  refine ⟨?_, ?_, ?_⟩
  · intro env reg key g hlu hparts
    simp [gmonadTimerFire, hlu, hparts]
  · intro env reg key hlu
    simp [closeGmonadGiveaway, hlu]
  · intro reg chatId userId username text h
    unfold gmonadEntry
    cases text with
    | none => rfl
    | some t =>
      cases username with
      | none => rfl
      | some u =>
        show (if isEntryTrigger (normalizeEntry t) = true then
          gmonadEntryScan chatId userId u reg else reg) = reg
        by_cases ht : isEntryTrigger (normalizeEntry t) = true
        · rw [if_pos ht]
          exact gmonadEntryScan_no_match chatId userId u reg h
        · rw [if_neg ht]

/-- Concrete instances of `gmonad_empty_deadline_and_late_entries`: a
deadline firing on an empty one-entry registry discards the giveaway with
the notice and no settlements; closing the now-empty registry again is a
no-op; and a late `gmonad` message for that chat leaves the empty
registry unchanged. -/
theorem gmonad_empty_deadline_and_late_entries_witness :
    gmonadTimerFire ⟨0, .ok 1⟩ [("55_1", ⟨55, "7", 1, 1/10, []⟩)] "55_1" =
      (eraseKey [("55_1", ⟨55, "7", 1, 1/10, []⟩)] "55_1",
       [NO_PARTICIPANTS_MSG], []) ∧
    closeGmonadGiveaway ⟨0, .ok 1⟩ [] "55_1" = ([], [], []) ∧
    gmonadEntry [] 55 9 (some "u") (some "gmonad") = [] := by
  refine ⟨?_, ?_, ?_⟩
  · exact gmonad_empty_deadline_and_late_entries.1 ⟨0, .ok 1⟩ _ "55_1"
      ⟨55, "7", 1, 1/10, []⟩ (by simp [lookupKey]) rfl
  · exact gmonad_empty_deadline_and_late_entries.2.1 ⟨0, .ok 1⟩ [] "55_1" rfl
  · exact gmonad_empty_deadline_and_late_entries.2.2 [] 55 9 (some "u")
      (some "gmonad") (by simp)

/-! ## Claim C9 -/

/-- Claim C9 counterexample: the claim says the governor's last-call
timestamp is updated atomically — the read-then-write is never
interleaved across concurrent invocations — and that every governed call
is at least 100ms after the previous one.  In `rateLimitedDelay`
(src/unnamed/part_000 lines 35-42) the read of `lastRpcCall` (lines
36-37) and its write (line 41) straddle the `await` of the sleep
(line 39), so two overlapping invocations can both read the same stale
timestamp.  Concretely, with `lastRpcCall = 0` and reads at 50ms and
60ms, both invocations take the sleep branch (50 < 100 and 60 < 100, so
both genuinely suspend between read and write), and both chain calls
proceed at 100ms — 0ms apart, below the 100ms minimum interval. -/
theorem rateLimitedDelay_interleaved_read_write :
    rlInterleavedPair 0 50 60 = (100, 100) ∧
    (rlInterleavedPair 0 50 60).2 - (rlInterleavedPair 0 50 60).1 <
      MIN_RPC_DELAY ∧
    50 - 0 < MIN_RPC_DELAY ∧ 60 - 0 < MIN_RPC_DELAY := by
  refine ⟨?_, ?_, ?_, ?_⟩ <;> decide

/-- Claim C9 amended: when invocations of `rateLimitedDelay` do not
overlap — each invocation reads the `lastRpcCall` written by the previous
one — consecutive governed chain calls are spaced at least
`MIN_RPC_DELAY = 100` ms apart.  The update is not atomic: the read and
the write straddle the sleep suspension, so overlapping invocations can
interleave and defeat the spacing (see the counterexample). -/
theorem rateLimitedDelay_sequential_spacing (last : ℕ) (ts : List ℕ) :
    List.Chain' (fun p q => p + MIN_RPC_DELAY ≤ q) (rlRun last ts) := by
  induction ts generalizing last with
  | nil => simp [rlRun]
  | cons t rest ih =>
    rw [rlRun, List.chain'_cons']
    refine ⟨?_, ih (rlProceedTime last t)⟩
    intro y hy
    cases rest with
    | nil => simp [rlRun] at hy
    | cons t2 rest2 =>
      rw [rlRun] at hy
      simp only [List.head?_cons, Option.mem_def, Option.some.injEq] at hy
      rw [← hy]
      exact rlProceedTime_ge (rlProceedTime last t) t2

/-! ## Claim C10 -/

/-- Claim C10 (confirmed): `getWalletBalance` returns 0 whenever the
underlying RPC call fails (it never propagates the error), and every
balance-gated operation then refuses with its insufficient-balance-style
branch rather than a distinct RPC error: the Monad `/pay` precondition,
the Solana `/tip` precondition, the Monad withdrawal
(`balance ≤ 0.0001`), the Solana transfer-all (`balance ≤ 0`, the
no-funds message), and the Solana withdrawal (`balance < amount`). -/
theorem getWalletBalance_error_gates :
    (∀ e, getWalletBalance (.error e) = 0) ∧
    (∀ (e : String) (env : PayEnv) (uws : List (String × FundingWallet))
       (st : PayState) (uid rcpt : String) (a : ℚ) (uw : FundingWallet),
       0 < a → env.balance = getWalletBalance (.error e) →
       lookupKey uws uid = some uw →
       (payHandler env uws st uid rcpt a).1 =
         .insufficientBalance (a + a * FEE_PERCENTAGE + NETWORK_FEE)
           env.balance) ∧
    (∀ (e : String) (env : TipEnv) (uws : List (String × FundingWallet))
       (cw : List (String × ClaimWallet)) (db : SolDb) (uid tgt : String)
       (a : ℚ) (uw : FundingWallet),
       0 < a → env.balance = getWalletBalance (.error e) →
       lookupKey uws uid = some uw →
       (tipHandler env uws cw db uid tgt a).1 =
         .insufficientBalance (a + a * FEE_PERCENTAGE) env.balance) ∧
    (∀ (e : String) (env : MonWdEnv) (w : ClaimWallet) (dest : String),
       env.balance = getWalletBalance (.error e) →
       (monadWithdraw env w dest).1 = .insufficientBalance env.balance) ∧
    (∀ (e : String) (env : SolXferEnv) (cwW : ClaimWallet)
       (fw : FundingWallet),
       env.balance = getWalletBalance (.error e) →
       (solTransferAll env (some cwW) (some fw)).1 = .noFunds) ∧
    (∀ (e : String) (env : SolXferEnv) (dest : String) (a : ℚ), 0 < a →
       env.balance = getWalletBalance (.error e) →
       (solWithdraw env dest a).1 = .insufficientBalance env.balance) := by
  refine ⟨fun e => rfl, ?_, ?_, ?_, ?_, ?_⟩
  · intro e env uws st uid rcpt a uw ha hb hlu
    have hb0 : env.balance = 0 := hb
    have hna : ¬ a ≤ 0 := not_le.mpr ha
    have hlt : env.balance < a + a * FEE_PERCENTAGE + NETWORK_FEE := by
      rw [hb0]
      unfold FEE_PERCENTAGE NETWORK_FEE
      linarith
    simp [payHandler, hna, hlu, hlt]
  · intro e env uws cw db uid tgt a uw ha hb hlu
    have hb0 : env.balance = 0 := hb
    have hna : ¬ a ≤ 0 := not_le.mpr ha
    have hlt : env.balance < a + a * FEE_PERCENTAGE := by
      rw [hb0]
      unfold FEE_PERCENTAGE
      linarith
    simp [tipHandler, hna, hlu, hlt]
  · intro e env w dest hb
    have hb0 : env.balance = 0 := hb
    have hle : env.balance ≤ 1 / 10000 := by rw [hb0]; norm_num
    unfold monadWithdraw
    rw [if_pos hle]
  · intro e env cwW fw hb
    have hb0 : env.balance = 0 := hb
    have hle : env.balance ≤ 0 := by rw [hb0]
    simp [solTransferAll, hle]
  · intro e env dest a ha hb
    have hb0 : env.balance = 0 := hb
    have hna : ¬ a ≤ 0 := not_le.mpr ha
    have hlt : env.balance < a := by rw [hb0]; exact ha
    simp [solWithdraw, hna, hlt]

/-- Concrete instances of `getWalletBalance_error_gates` with a failed
RPC call and amount 1. -/
theorem getWalletBalance_error_gates_witness :
    getWalletBalance (.error "rpc down") = 0 ∧
    (payHandler ⟨getWalletBalance (.error "rpc down"), ("k", "A"), 0,
        (fun _ => .ok 0), (fun _ => 0), 0, (fun _ => .ok 0), (fun _ => 0)⟩
        [("7", ⟨"fk", "fp"⟩)] ⟨[], ⟨[], [], [], false⟩⟩ "7" "bob" 1).1 =
      .insufficientBalance (1 + 1 * FEE_PERCENTAGE + NETWORK_FEE)
        (getWalletBalance (.error "rpc down")) ∧
    (tipHandler ⟨getWalletBalance (.error "rpc down"), ("k", "A"), .ok 0,
        .confirmedOk, fun _ => false⟩ [("7", ⟨"fk", "fp"⟩)] [] ⟨[], []⟩
        "7" "bob" 1).1 =
      .insufficientBalance (1 + 1 * FEE_PERCENTAGE)
        (getWalletBalance (.error "rpc down")) ∧
    (monadWithdraw ⟨getWalletBalance (.error "rpc down"), 1/1000, .ok 0,
        .ok (), true⟩ ⟨"pk", "pb", "x", 2⟩ "0xdest").1 =
      .insufficientBalance (getWalletBalance (.error "rpc down")) ∧
    (solTransferAll ⟨getWalletBalance (.error "rpc down"), .ok 0,
        .confirmedOk, fun _ => false⟩ (some ⟨"pk", "pb", "x", 2⟩)
        (some ⟨"fk", "fp"⟩)).1 = .noFunds ∧
    (solWithdraw ⟨getWalletBalance (.error "rpc down"), .ok 0, .confirmedOk,
        fun _ => false⟩ "dest" 1).1 =
      .insufficientBalance (getWalletBalance (.error "rpc down")) := by
  refine ⟨getWalletBalance_error_gates.1 "rpc down", ?_, ?_, ?_, ?_, ?_⟩
  · exact getWalletBalance_error_gates.2.1 "rpc down" _ _ _ "7" "bob" 1
      ⟨"fk", "fp"⟩ (by norm_num) rfl (by simp [lookupKey])
  · exact getWalletBalance_error_gates.2.2.1 "rpc down" _ _ _ _ "7" "bob" 1
      ⟨"fk", "fp"⟩ (by norm_num) rfl (by simp [lookupKey])
  · exact getWalletBalance_error_gates.2.2.2.1 "rpc down" _
      ⟨"pk", "pb", "x", 2⟩ "0xdest" rfl
  · exact getWalletBalance_error_gates.2.2.2.2.1 "rpc down" _
      ⟨"pk", "pb", "x", 2⟩ ⟨"fk", "fp"⟩ rfl
  · exact getWalletBalance_error_gates.2.2.2.2.2 "rpc down" _ "dest" 1
      (by norm_num) rfl

end TipMonad
